import Mathlib

/-!
Verification of the authenticated API client of the expense-tracker web
client (`src/utils/api.ts` and `src/utils/errorHandler.ts`).

The HTTP client is an axios instance with one response interceptor pair.
The error handler of that interceptor implements a single-flight token
refresh: module-level state `isRefreshing`, `isAuthInvalid` and
`failedQueue` form a refresh coordinator.  The JavaScript runtime is
single-threaded, so each interceptor invocation runs its synchronous
prefix (everything up to the first `await` / promise construction)
atomically; we embed that synchronous prefix as a pure step function on an
explicit coordinator state, and the two possible continuations of the
awaited refresh call (`then` / `catch`+`finally`) as settlement functions.
Continuations pushed onto `failedQueue` are identified by natural numbers
in arrival order.
-/

/-- The request configuration that travels with an axios error
(`error.config` / `originalRequest`): its `url` and the `_retry` flag the
interceptor sets before starting a refresh (`retryFlag` here because Lean
field names should not begin with an underscore).  A request that was
never marked has `retryFlag = false`, matching the flag's JS
`undefined` falsiness. -/
structure ReqConfig where
  url : String
  retryFlag : Bool
deriving Repr, DecidableEq

/-- The shape of an axios error as consumed by the interceptor and by
`handleApiError`: `error.response?.status` (`none` when no response was
received, e.g. a network failure), `error.config`, `error.code`
(e.g. `"ERR_NETWORK"`), and `error.response?.data?.message`. -/
structure ApiError where
  status : Option Nat
  config : ReqConfig
  code : Option String
  dataMessage : Option String
deriving Repr, DecidableEq

/-- The module-level mutable state of `api.ts`: `isRefreshing`,
`isAuthInvalid`, and `failedQueue` (continuation identifiers in arrival
order; the JS array holds `{resolve, reject}` pairs, which we name by
`Nat` ids). -/
structure InterceptState where
  isRefreshing : Bool
  isAuthInvalid : Bool
  failedQueue : List Nat
deriving Repr, DecidableEq

/-- The coordinator's `Idle` state with an empty queue. -/
def idleState : InterceptState :=
  { isRefreshing := false, isAuthInvalid := false, failedQueue := [] }

/-- An error value a promise can be rejected with: either a freshly
constructed `new Error(msg)` or the original axios error object passed
through unmodified. -/
inductive Err where
  | fresh (msg : String)
  | original (e : ApiError)
deriving Repr, DecidableEq

/-- How one invocation of the response interceptor's error handler leaves
the calling request, at the end of the handler's synchronous prefix:
  * `rejected e` — the handler returned `Promise.reject(e)`; the request
    settles now, with `e`;
  * `enqueue` — the handler pushed this request's continuation onto
    `failedQueue`; the request stays pending until the in-flight refresh
    settles;
  * `startRefresh` — the handler began `await api.post("/auth/refresh")`;
    the request stays pending until that refresh call settles. -/
inductive Outcome where
  | rejected (e : Err)
  | enqueue
  | startRefresh
deriving Repr, DecidableEq

/-- Everything one synchronous run of the error handler did: the new
coordinator state, the calling request's `Outcome`, the request
configuration as possibly mutated (`originalRequest._retry = true`),
whether the cached `"user"` entries were removed from local/session
storage, and how many `auth:logout` events were dispatched. -/
structure StepResult where
  state : InterceptState
  outcome : Outcome
  retriedConfig : ReqConfig
  clearedUser : Bool
  logoutEvents : Nat
deriving Repr, DecidableEq

/-- `needle` occurs as a contiguous run inside the haystack
(JavaScript's `String.prototype.includes`, over character lists). -/
def containsSubstr (needle : List Char) : List Char → Bool
  | [] => needle.isEmpty
  | c :: cs => needle.isPrefixOf (c :: cs) || containsSubstr needle cs

/-- `originalRequest.url?.includes("/auth/refresh")`. -/
def urlIncludesAuthRefresh (url : String) : Bool :=
  containsSubstr "/auth/refresh".toList url.toList

/-- The synchronous prefix of the response interceptor's error handler
(`api.interceptors.response.use`, second argument), for the request whose
continuation id is `contId`:

1. `if (isAuthInvalid)` reject with a fresh
   `"Authentication failed. Please login again."` error;
2. `if (error.response?.status === 401 && !originalRequest._retry)`:
   * if `originalRequest.url?.includes("/auth/refresh")`: set
     `isAuthInvalid`, clear the stored `"user"`, dispatch `auth:logout`,
     reject with a fresh `"Refresh token invalid. Please login again."`;
   * else `if (isRefreshing)`: push `{resolve, reject}` onto
     `failedQueue` and stay pending;
   * else: set `originalRequest._retry = true`, set `isRefreshing`, and
     start the refresh call;
3. otherwise `return Promise.reject(error)` — the original error object,
   unmodified. -/
def responseErrorStep (s : InterceptState) (contId : Nat) (error : ApiError) :
    StepResult :=
  if s.isAuthInvalid then
    { state := s
      outcome := .rejected (.fresh "Authentication failed. Please login again.")
      retriedConfig := error.config
      clearedUser := false
      logoutEvents := 0 }
  else if error.status = some 401 ∧ error.config.retryFlag = false then
    if urlIncludesAuthRefresh error.config.url then
      { state := { s with isAuthInvalid := true }
        outcome := .rejected (.fresh "Refresh token invalid. Please login again.")
        retriedConfig := error.config
        clearedUser := true
        logoutEvents := 1 }
    else if s.isRefreshing then
      { state := { s with failedQueue := s.failedQueue ++ [contId] }
        outcome := .enqueue
        retriedConfig := error.config
        clearedUser := false
        logoutEvents := 0 }
    else
      { state := { s with isRefreshing := true }
        outcome := .startRefresh
        retriedConfig := { error.config with retryFlag := true }
        clearedUser := false
        logoutEvents := 0 }
  else
    { state := s
      outcome := .rejected (.original error)
      retriedConfig := error.config
      clearedUser := false
      logoutEvents := 0 }

/-- How a continuation that was waiting in `failedQueue` is settled by
`processQueue`: `resolve(token)` or `reject(error)`. -/
inductive ContOutcome where
  | resolved (token : Option String)
  | rejectedWith (e : Err)
deriving Repr, DecidableEq

/-- `processQueue(error, token)`: for every `{resolve, reject}` in
`failedQueue`, `reject(error)` when an error is given and
`resolve(token)` otherwise; then `failedQueue = []`.  Returns the
settlement of each queued continuation (in queue order) together with the
new, emptied queue. -/
def processQueue (queue : List Nat) (error : Option Err) (token : Option String) :
    List (Nat × ContOutcome) × List Nat :=
  (queue.map fun id =>
    (id, match error with
         | some e => ContOutcome.rejectedWith e
         | none => ContOutcome.resolved token),
   [])

/-- What the request that started the refresh finally does once the
awaited refresh settles: `return api(originalRequest)` (retry) or
`return Promise.reject(...)`. -/
inductive FinalOutcome where
  | retryOriginal
  | rejectErr (e : Err)
deriving Repr, DecidableEq

/-- Everything the continuation of the awaited refresh call did: the new
coordinator state, the settlement of every previously queued continuation
(as produced by `processQueue`), whether the stored `"user"` entries were
removed, how many `auth:logout` events were dispatched, and the fate of
the request that had started the refresh. -/
structure SettleResult where
  state : InterceptState
  settlements : List (Nat × ContOutcome)
  clearedUser : Bool
  logoutEvents : Nat
  finalOutcome : FinalOutcome
deriving Repr, DecidableEq

/-- The `then`-continuation of `await api.post("/auth/refresh")` when the
response arrives with `response.data.success` true and access token
`token`: `processQueue(null, token)`, `return api(originalRequest)`, and
(`finally`) `isRefreshing = false`. -/
def refreshSuccess (s : InterceptState) (token : String) : SettleResult :=
  let q := processQueue s.failedQueue none (some token)
  { state := { s with isRefreshing := false, failedQueue := q.2 }
    settlements := q.1
    clearedUser := false
    logoutEvents := 0
    finalOutcome := .retryOriginal }

/-- The `catch (refreshError)` block (plus `finally`): set
`isAuthInvalid = true`, `processQueue(refreshError, null)`, remove the
stored `"user"` entries, dispatch `auth:logout`, reject the original
request with a fresh `"Authentication failed. Please login again."`
error, and reset `isRefreshing`.  This block also runs when the refresh
response arrives with `success` false, via `throw new Error("Refresh
failed")`. -/
def refreshCatch (s : InterceptState) (refreshError : Err) : SettleResult :=
  let s1 : InterceptState := { s with isAuthInvalid := true }
  let q := processQueue s1.failedQueue (some refreshError) none
  { state := { s1 with isRefreshing := false, failedQueue := q.2 }
    settlements := q.1
    clearedUser := true
    logoutEvents := 1
    finalOutcome := .rejectErr (.fresh "Authentication failed. Please login again.") }

/-- The axios error the interceptor sees when the coordinator's own
`POST /auth/refresh` request comes back 401: the config is the refresh
request's config (never marked `_retry`). -/
def refresh401Error : ApiError :=
  { status := some 401
    config := { url := "/auth/refresh", retryFlag := false }
    code := none
    dataMessage := none }

/-- The complete trace when the coordinator's in-flight
`POST /auth/refresh` call itself receives a 401.  That 401 first runs
through the same response interceptor (as request `refreshContId`); the
value that interceptor run rejects with is what the outer handler's
`catch` receives as `refreshError`, and the `catch`/`finally` block then
runs on the state the inner run left behind.  Effects of the two runs
accumulate.  `none` when the inner interceptor run did not reject (it
always does on a 401 of the refresh endpoint, so `none` is unreachable
here; keeping it makes the composition total without inventing a caught
value). -/
def refreshGets401 (s : InterceptState) (refreshContId : Nat) :
    Option SettleResult :=
  let r := responseErrorStep s refreshContId refresh401Error
  match r.outcome with
  | .rejected e =>
      let c := refreshCatch r.state e
      some { c with
              clearedUser := r.clearedUser || c.clearedUser
              logoutEvents := r.logoutEvents + c.logoutEvents }
  | _ => none

/-- What a continuation queued in `failedQueue` does once settled
(lines `return new Promise(...).then(() => api(originalRequest))
.catch((err) => Promise.reject(err))`): on resolution it re-issues
`api(originalRequest)` with the request configuration unchanged; on
rejection it propagates the rejection value. -/
inductive QueuedResult where
  | retryRequest (cfg : ReqConfig)
  | rejectErr (e : Err)
deriving Repr, DecidableEq

/-- The queued continuation of `originalRequest`, applied to its
settlement. -/
def queuedContinuation (originalRequest : ReqConfig) :
    ContOutcome → QueuedResult
  | .resolved _ => .retryRequest originalRequest
  | .rejectedWith e => .rejectErr e

/-- Sequential processing, on the single-threaded event loop, of a burst
of response errors: each `(contId, error)` pair runs the interceptor's
error handler on the state the previous one left.  Returns the final
state and each request's `Outcome`, in order. -/
def runErrors (s : InterceptState) :
    List (Nat × ApiError) → InterceptState × List Outcome
  | [] => (s, [])
  | (contId, e) :: rest =>
      ((runErrors (responseErrorStep s contId e).state rest).1,
       (responseErrorStep s contId e).outcome ::
         (runErrors (responseErrorStep s contId e).state rest).2)

/-- `authApi.resetAuthState`: `isAuthInvalid = false`,
`isRefreshing = false`, `failedQueue = []` (the cleared
`window.authInvalid` advisory flag lives outside the coordinator).  It
performs only these assignments: in particular it settles none of the
queued continuations. -/
def resetAuthState (_s : InterceptState) : InterceptState :=
  { isRefreshing := false, isAuthInvalid := false, failedQueue := [] }

/-- A primitive step of an `authApi` operation body: invoking
`resetAuthState`, or issuing a network request through the client. -/
inductive AuthStep where
  | reset
  | netPost (url : String)
deriving Repr, DecidableEq

/-- `authApi.login`: `resetAuthState()` then
`await api.post("/auth/login", {email, password})`. -/
def loginSteps : List AuthStep :=
  [.reset, .netPost "/auth/login"]

/-- `authApi.register`: `resetAuthState()` then
`await api.post("/auth/register", {email, password, name})`. -/
def registerSteps : List AuthStep :=
  [.reset, .netPost "/auth/register"]

/-- Run an `authApi` operation body over the coordinator state,
recording, for every network request it issues, the coordinator state at
the moment the request is sent. -/
def runAuthSteps (s : InterceptState) :
    List AuthStep → InterceptState × List (String × InterceptState)
  | [] => (s, [])
  | .reset :: rest => runAuthSteps (resetAuthState s) rest
  | .netPost u :: rest =>
      let (s', posts) := runAuthSteps s rest
      (s', (u, s) :: posts)

/-- `error.response?.status >= 500` under JavaScript semantics: when no
response exists the comparison is `undefined >= 500`, which is false. -/
def statusAtLeast500 : Option Nat → Bool
  | some n => 500 ≤ n
  | none => false

/-- `handleApiError(error, operation)` from `errorHandler.ts`, returning
the toast message it emits (`none` for the early `return` on 401):

1. `error.code === "ERR_NETWORK"` → connectivity message;
2. 401 → `return` (handled by the interceptor, no message);
3. 403 → permission message; 4. 404 → not-found message;
5. `status >= 500` → server-error message;
6. `error.response?.data?.message` → that message;
7. otherwise the generic operation-failed message. -/
def handleApiError (error : ApiError) (operation : String) : Option String :=
  if error.code = some "ERR_NETWORK" then
    some "Unable to connect to server. Please check your connection."
  else if error.status = some 401 then
    none
  else if error.status = some 403 then
    some "You don't have permission to perform this action."
  else if error.status = some 404 then
    some "Resource not found."
  else if statusAtLeast500 error.status then
    some "Server error. Please try again later."
  else
    match error.dataMessage with
    | some m => some m
    | none => some ("Failed to " ++ operation ++ ". Please try again.")

/-- The network-level result of one request issued through the client:
axios hands the interceptor pair either a response or an error.  (The
interceptors are response interceptors — by the time either handler runs,
the network request has already been sent.) -/
inductive NetResult where
  | ok (respId : Nat)
  | fail (e : ApiError)
deriving Repr, DecidableEq

/-- The success handler of the response interceptor:
`(response) => response`, an unconditional passthrough. -/
def responseSuccessStep (_s : InterceptState) (respId : Nat) : Nat :=
  respId

/-- What the caller observes from one call through the client in state
`s`, given the network's answer. -/
inductive ClientResult where
  | success (respId : Nat)
  | errorStep (r : StepResult)
deriving Repr, DecidableEq

/-- One call through the client: a successful response passes through the
success handler; an error runs the error handler. -/
def clientCall (s : InterceptState) (contId : Nat) : NetResult → ClientResult
  | .ok respId => .success (responseSuccessStep s respId)
  | .fail e => .errorStep (responseErrorStep s contId e)

/-- Whether the caller's promise was rejected by the interceptor in this
very call (before any refresh coordination). -/
def isImmediateRejection : ClientResult → Bool
  | .success _ => false
  | .errorStep r =>
      match r.outcome with
      | .rejected _ => true
      | _ => false

/-! Concrete sample inputs used by witness and counterexample theorems. -/

/-- A plain, never-retried request configuration for a given URL. -/
def plainReq (u : String) : ReqConfig :=
  { url := u, retryFlag := false }

/-- A 401 error on a plain (non-refresh, never-retried) request. -/
def err401At (u : String) : ApiError :=
  { status := some 401, config := plainReq u, code := none, dataMessage := none }

/-- A 403 error on a plain request. -/
def err403 : ApiError :=
  { status := some 403, config := plainReq "/expenses", code := none,
    dataMessage := none }

/-- A network-unreachable error: no response, `code = "ERR_NETWORK"`. -/
def errNetwork : ApiError :=
  { status := none, config := plainReq "/expenses", code := some "ERR_NETWORK",
    dataMessage := none }

/-- A 401 on a request already marked `_retry`. -/
def errRetried401 : ApiError :=
  { status := some 401, config := { url := "/expenses", retryFlag := true },
    code := none, dataMessage := none }

/-- The coordinator state after refresh has been found invalid. -/
def invalidState : InterceptState :=
  { isRefreshing := false, isAuthInvalid := true, failedQueue := [] }

/-- A coordinator state with a refresh in flight and queue `q`. -/
def refreshingState (q : List Nat) : InterceptState :=
  { isRefreshing := true, isAuthInvalid := false, failedQueue := q }

/-! ## Theorems -/

/-- Helper: the refresh endpoint's URL contains itself. -/
theorem urlIncludesAuthRefresh_self :
    urlIncludesAuthRefresh "/auth/refresh" = true := by
  decide

/-- C4. `processQueue` drains the queue exactly once with one shared
outcome: the new queue is empty, every queued continuation is settled
(settlement ids are exactly the queue, in order), and all settlements are
identical — all rejected with the given error when one is present, all
resolved with the given token otherwise. -/
theorem processQueue_atomic_drain (queue : List Nat) (error : Option Err)
    (token : Option String) :
    (processQueue queue error token).2 = [] ∧
    (processQueue queue error token).1.map Prod.fst = queue ∧
    (∀ e, error = some e →
      ∀ p ∈ (processQueue queue error token).1,
        p.2 = ContOutcome.rejectedWith e) ∧
    (error = none →
      ∀ p ∈ (processQueue queue error token).1,
        p.2 = ContOutcome.resolved token) := by
  refine ⟨rfl, by simp [processQueue, Function.comp_def], ?_, ?_⟩
  · intro e he p hp
    subst he
    simp only [processQueue, List.mem_map] at hp
    obtain ⟨id, _, rfl⟩ := hp
    rfl
  · intro he p hp
    subst he
    simp only [processQueue, List.mem_map] at hp
    obtain ⟨id, _, rfl⟩ := hp
    rfl

/-- Witness for C4 at the concrete queue `[1, 2]` with a failed refresh. -/
theorem processQueue_atomic_drain_witness :
    (processQueue [1, 2] (some (Err.fresh "boom")) none).2 = [] ∧
    ((1, ContOutcome.rejectedWith (Err.fresh "boom")) : Nat × ContOutcome).2 =
      ContOutcome.rejectedWith (Err.fresh "boom") :=
  ⟨(processQueue_atomic_drain [1, 2] (some (Err.fresh "boom")) none).1,
   (processQueue_atomic_drain [1, 2] (some (Err.fresh "boom")) none).2.2.1
     (Err.fresh "boom") rfl (1, ContOutcome.rejectedWith (Err.fresh "boom"))
     (by decide)⟩

/-- C8. `handleApiError` maps each error kind to exactly one user message
by the code's priority order: `ERR_NETWORK` → connectivity message;
otherwise 401 → no message; 403 → permission-denied; 404 → not-found;
status ≥ 500 → server-error; otherwise the envelope's `message` field
when present, else the generic operation-failed message. -/
theorem handleApiError_total_cases (e : ApiError) (op : String) :
    (e.code = some "ERR_NETWORK" →
      handleApiError e op =
        some "Unable to connect to server. Please check your connection.") ∧
    (e.code ≠ some "ERR_NETWORK" →
      (e.status = some 401 → handleApiError e op = none) ∧
      (e.status = some 403 →
        handleApiError e op =
          some "You don't have permission to perform this action.") ∧
      (e.status = some 404 →
        handleApiError e op = some "Resource not found.") ∧
      (∀ n, e.status = some n → 500 ≤ n →
        handleApiError e op = some "Server error. Please try again later.") ∧
      (e.status ≠ some 401 → e.status ≠ some 403 → e.status ≠ some 404 →
        statusAtLeast500 e.status = false →
        (∀ m, e.dataMessage = some m → handleApiError e op = some m) ∧
        (e.dataMessage = none →
          handleApiError e op =
            some ("Failed to " ++ op ++ ". Please try again.")))) := by
  constructor
  · intro h
    simp [handleApiError, h]
  · intro hnet
    refine ⟨?_, ?_, ?_, ?_, ?_⟩
    · intro h
      simp [handleApiError, hnet, h]
    · intro h
      simp [handleApiError, hnet, h, statusAtLeast500]
    · intro h
      simp [handleApiError, hnet, h, statusAtLeast500]
    · intro n hn h500
      have h1 : ¬n = 401 := by omega
      have h3 : ¬n = 403 := by omega
      have h4 : ¬n = 404 := by omega
      simp [handleApiError, hnet, hn, statusAtLeast500, h1, h3, h4, h500]
    · intro h401 h403 h404 h500
      constructor
      · intro m hm
        simp [handleApiError, hnet, h401, h403, h404, h500, hm]
      · intro hm
        simp [handleApiError, hnet, h401, h403, h404, h500, hm]

/-- Witness for C8: the connectivity branch at the concrete
`ERR_NETWORK` error, and the not-found branch at a concrete 404. -/
theorem handleApiError_total_cases_witness :
    handleApiError errNetwork "load expenses" =
      some "Unable to connect to server. Please check your connection." :=
  (handleApiError_total_cases errNetwork "load expenses").1 rfl

/-- C7. `resetAuthState` clears `isAuthInvalid`, `isRefreshing` and the
queue, returning the coordinator to `Idle` with an empty queue, from any
state; and every network request `authApi.login` or `authApi.register`
issues is sent with the coordinator already in that reset state (the
reset is the first step of both operation bodies). -/
theorem resetAuthState_clean_slate (s : InterceptState) :
    resetAuthState s = idleState ∧
    (resetAuthState s).isAuthInvalid = false ∧
    (resetAuthState s).isRefreshing = false ∧
    (resetAuthState s).failedQueue = [] ∧
    loginSteps.head? = some AuthStep.reset ∧
    registerSteps.head? = some AuthStep.reset ∧
    (runAuthSteps s loginSteps).2 = [("/auth/login", idleState)] ∧
    (runAuthSteps s registerSteps).2 = [("/auth/register", idleState)] :=
  ⟨rfl, rfl, rfl, rfl, rfl, rfl, rfl, rfl⟩

/-- C9. When the queue is non-empty, `resetAuthState` discards the queued
continuations without settling them: the queue becomes empty, and a
refresh that settles after the reset (success or failure) settles no
continuation at all — in particular none of the previously queued ones. -/
theorem resetAuthState_discards_pending (s : InterceptState)
    (h : s.failedQueue ≠ []) :
    (resetAuthState s).failedQueue = [] ∧
    (∀ token, (refreshSuccess (resetAuthState s) token).settlements = []) ∧
    (∀ e, (refreshCatch (resetAuthState s) e).settlements = []) :=
  ⟨rfl, fun _ => rfl, fun _ => rfl⟩

/-- Witness for C9 at a state whose queue holds continuation `5`. -/
theorem resetAuthState_discards_pending_witness :
    (resetAuthState (refreshingState [5])).failedQueue = [] ∧
    (refreshSuccess (resetAuthState (refreshingState [5])) "t").settlements = [] :=
  ⟨(resetAuthState_discards_pending (refreshingState [5]) (by decide)).1,
   (resetAuthState_discards_pending (refreshingState [5]) (by decide)).2.1 "t"⟩

/-- C5. A request already carrying the `_retry` flag that receives a
second 401 never triggers another refresh or retry: the handler never
starts a refresh and never enqueues it, leaves the coordinator state
untouched with no side effects, and — whenever the 401 branch is
reachable at all (`isAuthInvalid = false`) — rejects with the original
error object, a normal failure. -/
theorem retried_401_propagates (s : InterceptState) (contId : Nat)
    (e : ApiError) (h401 : e.status = some 401)
    (hretry : e.config.retryFlag = true) :
    (responseErrorStep s contId e).outcome ≠ Outcome.startRefresh ∧
    (responseErrorStep s contId e).outcome ≠ Outcome.enqueue ∧
    (responseErrorStep s contId e).state = s ∧
    (responseErrorStep s contId e).retriedConfig = e.config ∧
    (responseErrorStep s contId e).logoutEvents = 0 ∧
    (s.isAuthInvalid = false →
      (responseErrorStep s contId e).outcome =
        Outcome.rejected (Err.original e)) := by
  unfold responseErrorStep
  by_cases hs : s.isAuthInvalid <;> simp [hs, hretry]

/-- Witness for C5: a second 401 on the already-retried request, from the
refreshing state, propagates the original error. -/
theorem retried_401_propagates_witness :
    (responseErrorStep (refreshingState [0]) 1 errRetried401).outcome =
      Outcome.rejected (Err.original errRetried401) :=
  (retried_401_propagates (refreshingState [0]) 1 errRetried401 rfl rfl).2.2.2.2.2
    rfl

/-- C6 counterexample: in the `Invalid` state (`isAuthInvalid = true`) a
403 failure is NOT propagated unmodified — the interceptor replaces it
with a fresh `"Authentication failed. Please login again."` error, so the
claim's "in every coordinator state" fails. -/
theorem non401_replaced_when_invalid :
    (responseErrorStep invalidState 0 err403).outcome ≠
      Outcome.rejected (Err.original err403) ∧
    (responseErrorStep invalidState 0 err403).outcome =
      Outcome.rejected
        (Err.fresh "Authentication failed. Please login again.") := by
  decide

/-- C6 amended: every non-401 failure is propagated to the caller
unmodified by the response interceptor — the rejection reason is the very
error object the network layer produced, with no state change and no side
effects — in every coordinator state with `isAuthInvalid = false`; when
`isAuthInvalid = true` the interceptor instead substitutes a fresh
`"Authentication failed. Please login again."` rejection. -/
theorem non401_propagates_unmodified (s : InterceptState) (contId : Nat)
    (e : ApiError) (hvalid : s.isAuthInvalid = false)
    (h401 : e.status ≠ some 401) :
    responseErrorStep s contId e =
      { state := s
        outcome := Outcome.rejected (Err.original e)
        retriedConfig := e.config
        clearedUser := false
        logoutEvents := 0 } := by
  unfold responseErrorStep
  simp [hvalid, h401]

/-- Witness for amended C6: a network error (no response at all) in the
idle state is rejected as the original error object. -/
theorem non401_propagates_unmodified_witness :
    responseErrorStep idleState 0 errNetwork =
      { state := idleState
        outcome := Outcome.rejected (Err.original errNetwork)
        retriedConfig := errNetwork.config
        clearedUser := false
        logoutEvents := 0 } :=
  non401_propagates_unmodified idleState 0 errNetwork rfl (by decide)

/-- C2 counterexample: with `isAuthInvalid = true`, a call whose network
result is a success is delivered to the caller unchanged — it is not
rejected, so "every subsequent call is rejected immediately without a
network call" fails (the interceptors are response interceptors: the
network request is issued in every state, and success responses pass
straight through). -/
theorem invalid_state_success_passes_through :
    clientCall invalidState 0 (NetResult.ok 7) = ClientResult.success 7 ∧
    isImmediateRejection (clientCall invalidState 0 (NetResult.ok 7)) = false :=
  ⟨rfl, rfl⟩

/-- C2 amended: once `isAuthInvalid = true`, every call whose network
result is a failure is rejected immediately by the error handler with a
fresh `"Authentication failed. Please login again."` error — before any
refresh handling, with no state change and no side effects — while
successful responses still pass through unchanged; the flag stays set
until `resetAuthState` clears it.  (The network request itself is still
issued: the guard lives in a response interceptor.) -/
theorem invalid_state_rejects_failures (s : InterceptState)
    (hs : s.isAuthInvalid = true) (contId : Nat) (e : ApiError)
    (respId : Nat) :
    responseErrorStep s contId e =
      { state := s
        outcome :=
          Outcome.rejected
            (Err.fresh "Authentication failed. Please login again.")
        retriedConfig := e.config
        clearedUser := false
        logoutEvents := 0 } ∧
    clientCall s contId (NetResult.ok respId) = ClientResult.success respId ∧
    (resetAuthState s).isAuthInvalid = false := by
  refine ⟨?_, rfl, rfl⟩
  unfold responseErrorStep
  simp [hs]

/-- Witness for amended C2 at the concrete invalid state and a 403
failure. -/
theorem invalid_state_rejects_failures_witness :
    responseErrorStep invalidState 0 err403 =
      { state := invalidState
        outcome :=
          Outcome.rejected
            (Err.fresh "Authentication failed. Please login again.")
        retriedConfig := err403.config
        clearedUser := false
        logoutEvents := 0 } :=
  (invalid_state_rejects_failures invalidState rfl 0 err403 0).1

/-- C3 counterexample: when the in-flight `POST /auth/refresh` itself
receives a 401 (refreshing state, queue `[1, 2]`), the `auth:logout`
event is dispatched TWICE — once by the interceptor's refresh-endpoint
branch and once by the outer handler's catch branch — not exactly once as
claimed. -/
theorem refresh401_logout_twice :
    (refreshGets401 (refreshingState [1, 2]) 9).map SettleResult.logoutEvents =
      some 2 ∧
    (refreshGets401 (refreshingState [1, 2]) 9).map SettleResult.logoutEvents ≠
      some 1 := by
  decide

/-- C3 amended: if the refresh call itself returns 401 (its URL is the
`/auth/refresh` endpoint, so that 401 first runs the interceptor's
refresh-endpoint branch and its rejection is then caught by the awaiting
handler), the coordinator transitions to `Invalid`, every continuation in
`failedQueue` is rejected (with the fresh
`"Refresh token invalid. Please login again."` error the inner run
produced), the stored `"user"` identity is cleared, the original request
is rejected with `"Authentication failed. Please login again."`, and the
`auth:logout` broadcast is dispatched exactly TWICE (once per branch),
not once. -/
theorem refresh401_full_trace (s : InterceptState) (refreshContId : Nat)
    (hvalid : s.isAuthInvalid = false) :
    refreshGets401 s refreshContId =
      some
        { state :=
            { isRefreshing := false, isAuthInvalid := true, failedQueue := [] }
          settlements :=
            s.failedQueue.map fun i =>
              (i, ContOutcome.rejectedWith
                    (Err.fresh "Refresh token invalid. Please login again."))
          clearedUser := true
          logoutEvents := 2
          finalOutcome :=
            FinalOutcome.rejectErr
              (Err.fresh "Authentication failed. Please login again.") } := by
  obtain ⟨sr, si, sq⟩ := s
  simp only [InterceptState.isAuthInvalid] at hvalid
  subst hvalid
  unfold refreshGets401 responseErrorStep
  simp [refresh401Error, urlIncludesAuthRefresh_self, refreshCatch, processQueue]

/-- Witness for amended C3 at the refreshing state with queue `[1, 2]`. -/
theorem refresh401_full_trace_witness :
    refreshGets401 (refreshingState [1, 2]) 9 =
      some
        { state :=
            { isRefreshing := false, isAuthInvalid := true, failedQueue := [] }
          settlements :=
            (refreshingState [1, 2]).failedQueue.map fun i =>
              (i, ContOutcome.rejectedWith
                    (Err.fresh "Refresh token invalid. Please login again."))
          clearedUser := true
          logoutEvents := 2
          finalOutcome :=
            FinalOutcome.rejectErr
              (Err.fresh "Authentication failed. Please login again.") } :=
  refresh401_full_trace (refreshingState [1, 2]) 9 rfl

/-- C10. A continuation queued in `failedQueue` retries its request with
the configuration unchanged — `_retry` still unset — whereas the request
that triggered the refresh is the only one marked `_retry`; consequently,
when the queued request's retry receives another 401 it re-enters the
refresh path (enqueueing again or starting a new refresh) instead of
propagating as a final failure. -/
theorem queued_retry_unmarked (s s' : InterceptState) (contId contId' : Nat)
    (e : ApiError) (token : Option String) (h401 : e.status = some 401)
    (hretry : e.config.retryFlag = false)
    (hurl : urlIncludesAuthRefresh e.config.url = false) :
    (s.isAuthInvalid = false → s.isRefreshing = true →
      (responseErrorStep s contId e).outcome = Outcome.enqueue ∧
      (responseErrorStep s contId e).retriedConfig = e.config) ∧
    (s.isAuthInvalid = false → s.isRefreshing = false →
      (responseErrorStep s contId e).outcome = Outcome.startRefresh ∧
      (responseErrorStep s contId e).retriedConfig =
        { e.config with retryFlag := true }) ∧
    queuedContinuation e.config (ContOutcome.resolved token) =
      QueuedResult.retryRequest e.config ∧
    (s'.isAuthInvalid = false →
      (responseErrorStep s' contId' e).outcome = Outcome.enqueue ∨
      (responseErrorStep s' contId' e).outcome = Outcome.startRefresh) := by
  refine ⟨?_, ?_, rfl, ?_⟩
  · intro hv hr
    unfold responseErrorStep
    simp [hv, hr, h401, hretry, hurl]
  · intro hv hr
    unfold responseErrorStep
    simp [hv, hr, h401, hretry, hurl]
  · intro hv
    unfold responseErrorStep
    by_cases hr : s'.isRefreshing <;> simp [hv, hr, h401, hretry, hurl]

/-- Witness for C10: a queued 401 at `/expenses` while refreshing is
enqueued with its configuration unchanged. -/
theorem queued_retry_unmarked_witness :
    (responseErrorStep (refreshingState []) 3 (err401At "/expenses")).outcome =
      Outcome.enqueue ∧
    (responseErrorStep (refreshingState []) 3
        (err401At "/expenses")).retriedConfig =
      (err401At "/expenses").config :=
  (queued_retry_unmarked (refreshingState []) idleState 3 0
      (err401At "/expenses") none rfl rfl (by decide)).1 rfl rfl

/-- Helper: a replicated run of `enqueue` outcomes contains no
`startRefresh`. -/
theorem count_startRefresh_replicate (n : Nat) :
    (List.replicate n Outcome.enqueue).count Outcome.startRefresh = 0 := by
  induction n with
  | zero => rfl
  | succ n ih => simp [List.replicate_succ, List.count_cons, ih]

/-- Helper for C1: while a refresh is in flight
(`isRefreshing = true`, `isAuthInvalid = false`), every further 401 on a
plain request is enqueued: a burst of such errors appends exactly its
continuation ids to `failedQueue`, every outcome is `enqueue`, and the
flags are untouched. -/
theorem runErrors_refreshing (es : List (Nat × ApiError)) :
    ∀ s : InterceptState, s.isAuthInvalid = false → s.isRefreshing = true →
      (∀ p ∈ es, (p.2).status = some 401 ∧ (p.2).config.retryFlag = false ∧
        urlIncludesAuthRefresh (p.2).config.url = false) →
      runErrors s es =
        ({ s with failedQueue := s.failedQueue ++ es.map Prod.fst },
         List.replicate es.length Outcome.enqueue) := by
  induction es with
  | nil =>
    intro s _ _ _
    simp [runErrors]
  | cons p rest ih =>
    intro s hv hr hall
    obtain ⟨contId, e⟩ := p
    obtain ⟨h401, hretry, hurl⟩ := hall (contId, e) (by simp)
    dsimp only at h401 hretry hurl
    have hstep : responseErrorStep s contId e =
        { state := { s with failedQueue := s.failedQueue ++ [contId] }
          outcome := Outcome.enqueue
          retriedConfig := e.config
          clearedUser := false
          logoutEvents := 0 } := by
      unfold responseErrorStep
      simp [hv, hr, h401, hretry, hurl]
    simp only [runErrors, hstep]
    rw [ih { s with failedQueue := s.failedQueue ++ [contId] } (by simp [hv])
          (by simp [hr]) (fun q hq => hall q (by simp [hq]))]
    simp [List.replicate_succ]

/-- C1. For every non-empty burst of 401 responses on plain (non-refresh,
never-retried) requests processed from the `Idle` state, exactly one
refresh call is started: the first 401 sets `isRefreshing` and starts the
refresh, every later 401 is pushed onto `failedQueue`, and every request
in the burst stays pending (outcome `startRefresh` or `enqueue`, never an
immediate settlement) until the single refresh call settles. -/
theorem single_flight_refresh (es : List (Nat × ApiError)) (hne : es ≠ [])
    (hall : ∀ p ∈ es, (p.2).status = some 401 ∧ (p.2).config.retryFlag = false ∧
      urlIncludesAuthRefresh (p.2).config.url = false) :
    (runErrors idleState es).2 =
      Outcome.startRefresh ::
        List.replicate (es.length - 1) Outcome.enqueue ∧
    (runErrors idleState es).2.count Outcome.startRefresh = 1 ∧
    (∀ o ∈ (runErrors idleState es).2,
      o = Outcome.startRefresh ∨ o = Outcome.enqueue) ∧
    (runErrors idleState es).1.isRefreshing = true ∧
    (runErrors idleState es).1.failedQueue = es.tail.map Prod.fst := by
  match es, hne with
  | (contId, e) :: rest, _ =>
    obtain ⟨h401, hretry, hurl⟩ := hall (contId, e) (by simp)
    dsimp only at h401 hretry hurl
    have hstep : responseErrorStep idleState contId e =
        { state :=
            { isRefreshing := true, isAuthInvalid := false, failedQueue := [] }
          outcome := Outcome.startRefresh
          retriedConfig := { e.config with retryFlag := true }
          clearedUser := false
          logoutEvents := 0 } := by
      unfold responseErrorStep idleState
      simp [h401, hretry, hurl]
    have hrest := runErrors_refreshing rest
        { isRefreshing := true, isAuthInvalid := false, failedQueue := [] }
        rfl rfl (fun q hq => hall q (by simp [hq]))
    refine ⟨?_, ?_, ?_, ?_, ?_⟩
    · simp only [runErrors, hstep, hrest, List.length_cons]
      simp
    · simp only [runErrors, hstep, hrest]
      simp [List.count_cons, count_startRefresh_replicate]
    · intro o ho
      simp only [runErrors, hstep, hrest] at ho
      simp only [List.mem_cons, List.mem_replicate] at ho
      rcases ho with h | h
      · exact Or.inl h
      · exact Or.inr h.2
    · simp only [runErrors, hstep, hrest]
    · simp only [runErrors, hstep, hrest]
      simp

/-- Witness for C1: three concurrent 401s from `Idle` yield exactly one
refresh call. -/
theorem single_flight_refresh_witness :
    (runErrors idleState
        [(0, err401At "/expenses"), (1, err401At "/income"),
         (2, err401At "/budget")]).2.count Outcome.startRefresh = 1 :=
  (single_flight_refresh
      [(0, err401At "/expenses"), (1, err401At "/income"),
       (2, err401At "/budget")]
      (by decide) (by decide)).2.1
